import Mathlib

/-!
Verification of the risk-classification engine of the
twilio-incoming-ultravox-agent repository.

The engine is the function `classifyRiskAndCounselling` in `src/index.js`
(the consolidated revision at lines 1391-1673, which contains the full
oracle-reconciliation logic).  This file gives a shallow embedding:

* strings are Lean `String`/`List Char`; JS `toLowerCase` is modelled for
  the ASCII range actually exercised by the term tables;
* the five immediate-risk regular expressions are embedded as explicit
  token sequences with a backtracking matcher (`rtest`);
* `JSON.parse` is modelled for the fragment the engine's prompts request
  and its tests exercise: flat objects with string keys and string
  values, no escape sequences (inputs outside the fragment are parse
  failures, as a thrown `SyntaxError` is for the JS code);
* the external Gemini call is modelled by an `OracleBehavior` value:
  not configured, a thrown exception carrying a message, or a raw text
  response.
-/

/-- JS `\s` whitespace for the characters occurring in this code base. -/
def isWs (c : Char) : Bool :=
  c = ' ' ∨ c = '\t' ∨ c = '\n' ∨ c = '\r'

/-- ASCII lower-casing, the fragment of JS `toLowerCase` exercised here. -/
def lowerChar (c : Char) : Char :=
  if 'A' ≤ c ∧ c ≤ 'Z' then Char.ofNat (c.toNat + 32) else c

/-- `needle` is a prefix of `hay` (character lists). -/
def lstartsWith : List Char → List Char → Bool
  | _, [] => true
  | [], _ :: _ => false
  | c :: hs, n :: ns => c = n && lstartsWith hs ns

/-- JS `hay.includes(needle)` on character lists. -/
def isSub (needle : List Char) : List Char → Bool
  | [] => lstartsWith [] needle
  | c :: t => lstartsWith (c :: t) needle || isSub needle t

/-- Source line 1397: the CRITICAL_SEVERE tier term table. -/
def criticalSevereTerms : List String :=
  ["suicide", "kill myself", "end my life", "i want to die", "hang myself",
   "take my own life", "marna chahta hun", "jaan dena", "suicide karna"]

/-- Source line 1402: the SEVERE_PLAN tier term table. -/
def severePlanTerms : List String :=
  ["jump off", "overdose", "self harm", "self-harm", "cut myself",
   "razor blade", "poison myself", "gun to my head", "bought a rope",
   "bought pills", "wrote a note"]

/-- Source line 1407: the HIGH tier term table. -/
def highTerms : List String :=
  ["i am going to", "i have a plan", "goodbye forever", "can\x27t go on",
   "hopeless", "life is meaningless", "nothing matters", "give up completely",
   "no way out", "trapped forever", "can\x27t escape", "ready to go",
   "final decision", "said goodbye", "planning to end", "going to jump",
   "no reason to live", "better off dead", "koi raah nahi", "umeed khatam",
   "plan bana liya", "alvida keh diya", "bass khatam", "zindagi khatam"]

/-- Source line 1417: the MEDIUM tier term table. -/
def mediumTerms : List String :=
  ["depressed", "depression", "anxious", "panic", "can\x27t sleep",
   "lost interest", "crying a lot", "worthless", "feeling empty",
   "numb inside", "constant pain", "overwhelming sadness", "can\x27t cope",
   "breaking down", "lost control", "spiraling", "dark thoughts",
   "intrusive thoughts", "mental breakdown", "emotional pain",
   "pareshan hun", "depression hai", "udaas hun", "ro raha hun",
   "kuch samajh nahi aa raha", "pareshani hai", "anxiety hai",
   "ghabrat hai", "dukh hai"]

/-- Source line 1428: the LOW tier term table. -/
def lowTerms : List String :=
  ["stressed", "sad", "lonely", "down", "upset", "tired of everything",
   "frustrated", "annoyed", "irritated", "fed up", "overwhelmed",
   "exhausted", "burned out", "bothered", "disappointed", "discouraged",
   "moody", "grumpy", "pareshaan", "gussa", "tension", "thak gaya",
   "bore ho gaya", "irritate ho raha", "tang aa gaya", "dimag kharab",
   "stress hai"]

/-- A token of one of the five immediate-risk regular expressions:
a literal, an alternation of literals, or `\s+`. -/
inductive RTok
  | lit (s : String)
  | alt (ss : List String)
  | ws
deriving Repr

/-- Remainders after consuming one-or-more whitespace characters. -/
def wsTails : List Char → List (List Char)
  | [] => []
  | c :: t => if isWs c then t :: wsTails t else []

/-- Possible remainders after matching one token at the given position. -/
def tokStep (t : RTok) (cs : List Char) : List (List Char) :=
  match t with
  | .lit s => if lstartsWith cs s.toList then [cs.drop s.toList.length] else []
  | .alt ss => ss.flatMap fun s =>
      if lstartsWith cs s.toList then [cs.drop s.toList.length] else []
  | .ws => wsTails cs

/-- All remainders after matching a token sequence from a set of states. -/
def runToks (ts : List RTok) (states : List (List Char)) : List (List Char) :=
  ts.foldl (fun st t => st.flatMap (tokStep t)) states

/-- The token sequence matches starting exactly at this position. -/
def matchHere (ts : List RTok) (cs : List Char) : Bool :=
  runToks ts [cs] ≠ []

/-- JS `pattern.test(text)`: the pattern matches somewhere in the text. -/
def rtest (ts : List RTok) (cs : List Char) : Bool :=
  cs.tails.any (matchHere ts)

/-- Source line 1475: the five immediate-risk regular expressions.
`/i\s+(am|will|going to)\s+(kill|end|hurt|harm)\s+(my)/i`,
`/tonight\s+(i|will|going)/i`, `/(plan|planning)\s+to\s+(die|kill|end)/i`,
`/(ready|prepared)\s+to\s+(die|go|leave)/i`, `/going\s+to\s+(jump|hang)/i`. -/
def immediateRiskPatterns : List (List RTok) :=
  [[.lit ("i"), .ws, .alt ["am", "will", "going to"], .ws,
    .alt ["kill", "end", "hurt", "harm"], .ws, .lit ("my")],
   [.lit ("tonight"), .ws, .alt ["i", "will", "going"]],
   [.alt ["plan", "planning"], .ws, .lit ("to"), .ws,
    .alt ["die", "kill", "end"]],
   [.alt ["ready", "prepared"], .ws, .lit ("to"), .ws,
    .alt ["die", "go", "leave"]],
   [.lit ("going"), .ws, .lit ("to"), .ws, .alt ["jump", "hang"]]]

/-- One entry of the `detectedTerms` evidence list. -/
structure DetectedTerm where
  term : String
  category : String
deriving Repr, DecidableEq

/-- Source lines 1439-1488: the lexical scoring pass over the lowercased
text.  Each tier is scanned in source order: a matching term adds its tier
weight (8/6/3/2/1) and one evidence entry; each matching immediate-risk
pattern adds 10 and a synthetic `critical_severe` entry. -/
def scoreAndTerms (text : List Char) : Nat × List DetectedTerm :=
  let crit := criticalSevereTerms.filter fun term => isSub term.toList text
  let sev := severePlanTerms.filter fun term => isSub term.toList text
  let high := highTerms.filter fun term => isSub term.toList text
  let med := mediumTerms.filter fun term => isSub term.toList text
  let low := lowTerms.filter fun term => isSub term.toList text
  let pats := immediateRiskPatterns.filter fun p => rtest p text
  (8 * crit.length + 6 * sev.length + 3 * high.length + 2 * med.length +
     1 * low.length + 10 * pats.length,
   crit.map (fun term => ⟨term, "critical_severe"⟩) ++
     sev.map (fun term => ⟨term, "severe_plan"⟩) ++
     high.map (fun term => ⟨term, "high"⟩) ++
     med.map (fun term => ⟨term, "medium"⟩) ++
     low.map (fun term => ⟨term, "low"⟩) ++
     pats.map (fun _ => ⟨"immediate_risk_pattern", "critical_severe"⟩))

/-- Source lines 1491-1495: the score-to-tendency threshold mapping. -/
def tendencyOfScore (score : Nat) : String :=
  if score ≥ 10 then "severe"
  else if score ≥ 6 then "high"
  else if score ≥ 4 then "medium"
  else if score ≥ 1 then "low"
  else "no"

/-- Source lines 1498-1500: the tendency-to-counselling mapping. -/
def recommendCounselling (tendency : String) : String :=
  if tendency = "severe" ∨ tendency = "high" then "yes"
  else if tendency = "medium" then "advised"
  else "no"

/-- Source line 1562: `aiRiskLevels[x] || 0`, the ordinal encoding of risk
levels with default 0 for anything outside the enumeration. -/
def riskOrd (s : String) : Nat :=
  if s = "no" then 0
  else if s = "low" then 1
  else if s = "medium" then 2
  else if s = "high" then 3
  else if s = "severe" then 4
  else 0

/-- `aiRiskLevels[obj.risk_level] || 0` where the field may be absent. -/
def riskOrdO : Option String → Nat
  | some s => riskOrd s
  | none => 0

/-- Ordinal encoding of counselling recommendations, default 0. -/
def counsOrd (s : String) : Nat :=
  if s = "no" then 0
  else if s = "advised" then 1
  else if s = "yes" then 2
  else 0

/-- JS `x || d` for a possibly-absent string (absent and `""` are falsy). -/
def jsOr (o : Option String) (d : String) : String :=
  match o with
  | some s => if s = "" then d else s
  | none => d

/-- JS `String.prototype.trim` on a character list. -/
def jsTrim (cs : List Char) : List Char :=
  ((cs.dropWhile isWs).reverse.dropWhile isWs).reverse

/-- The lexical pass applied to a raw transcript: lowercase then score
(source lines 1392-1488). -/
def lexAnalyse (transcriptText : String) : Nat × List DetectedTerm :=
  scoreAndTerms (transcriptText.toList.map lowerChar)

/-- The lexical-only score of a transcript. -/
def lexScore (t : String) : Nat := (lexAnalyse t).1

/-- The lexical-only risk tendency of a transcript. -/
def lexTendency (t : String) : String := tendencyOfScore (lexScore t)

/-- Leading whitespace removed (used by the JSON fragment parser). -/
def skipWs (cs : List Char) : List Char := cs.dropWhile isWs

/-- Body of a JSON string literal: plain characters up to a closing quote
(escape sequences are outside the modelled fragment). -/
def strLitAux : List Char → List Char → Option (String × List Char)
  | [], _ => none
  | c :: r, acc =>
      if c = '"' then some (String.mk acc.reverse, r)
      else if c = '\\' then none
      else strLitAux r (c :: acc)

/-- A JSON string literal at the head of the input. -/
def parseStringLit (cs : List Char) : Option (String × List Char) :=
  match cs with
  | c :: rest => if c = '"' then strLitAux rest [] else none
  | [] => none

/-- Members of a JSON object (after the opening brace), fuelled. -/
def parsePairsAux : Nat → List Char → List (String × String) →
    Option (List (String × String) × List Char)
  | 0, _, _ => none
  | fuel + 1, cs, acc =>
      match parseStringLit (skipWs cs) with
      | none => none
      | some (k, r1) =>
          match skipWs r1 with
          | ':' :: r2 =>
              match parseStringLit (skipWs r2) with
              | none => none
              | some (v, r3) =>
                  match skipWs r3 with
                  | ',' :: r4 => parsePairsAux fuel r4 (acc ++ [(k, v)])
                  | '}' :: r5 => some (acc ++ [(k, v)], r5)
                  | _ => none
          | _ => none

/-- `JSON.parse` on the modelled fragment: a single flat object with
string keys and string values and no trailing input; anything else is a
parse failure (a thrown `SyntaxError` in JS). -/
def jsonParse (cs : List Char) : Option (List (String × String)) :=
  match skipWs cs with
  | '{' :: r =>
      match skipWs r with
      | '}' :: r2 => if skipWs r2 = [] then some [] else none
      | _ =>
          match parsePairsAux (r.length + 1) r [] with
          | some (obj, rest) => if skipWs rest = [] then some obj else none
          | none => none
  | _ => none

/-- Index of the first occurrence of a character, if any. -/
def firstIdx (c : Char) : List Char → Option Nat
  | [] => none
  | x :: t => if x = c then some 0 else (firstIdx c t).map (· + 1)

/-- Source line 1555: `aiText.match(/\x7b[\s\S]*\x7d/)`.  The regex match
is the substring from the first opening brace to the last closing brace,
when the latter comes after the former. -/
def jsonExtract (cs : List Char) : Option (List Char) :=
  match firstIdx '{' cs, firstIdx '}' cs.reverse with
  | some i, some k =>
      let j := cs.length - 1 - k
      if i < j then some ((cs.drop i).take (j - i + 1)) else none
  | _, _ => none

/-- Lookup of a JSON object field; on duplicate keys `JSON.parse` keeps
the last binding. -/
def jlookup (obj : List (String × String)) (k : String) : Option String :=
  (obj.reverse.find? fun p => p.1 = k).map (·.2)

/-- The shape of the `geminiAnalysis` object attached to a result: the
fields the engine reads or writes, each absent unless set. -/
structure GeminiAnalysis where
  risk_level : Option String := none
  counseling_needed : Option String := none
  immediate_intervention : Option String := none
  assessment_summary : Option String := none
  raw_response : Option String := none
  parse_error : Option String := none
  error : Option String := none
  fallback_used : Bool := false
deriving Repr, DecidableEq

/-- The analysis object built from a successfully parsed JSON response. -/
def gaOfJson (obj : List (String × String)) : GeminiAnalysis :=
  { risk_level := jlookup obj "risk_level",
    counseling_needed := jlookup obj "counseling_needed",
    immediate_intervention := jlookup obj "immediate_intervention",
    assessment_summary := jlookup obj "assessment_summary",
    error := jlookup obj "error" }

/-- `\w` of the fallback field-extraction regexes. -/
def isWordChar (c : Char) : Bool :=
  ('a' ≤ c ∧ c ≤ 'z') ∨ ('A' ≤ c ∧ c ≤ 'Z') ∨ ('0' ≤ c ∧ c ≤ '9') ∨ c = '_'

/-- Case-insensitive literal consumption (literal given lowercase). -/
def consumeCI : List Char → List Char → Option (List Char)
  | [], cs => some cs
  | _ :: _, [] => none
  | l :: ls, c :: cs => if lowerChar c = l then consumeCI ls cs else none

/-- One attempt, at a fixed position, of the fallback regex
`w1[_\s]*w2[:\s]*["\x27]?(\w+)` of source lines 1583-1584; returns the
captured word. -/
def fieldHere (w1 w2 : List Char) (cs : List Char) : Option String :=
  (consumeCI w1 cs).bind fun r1 =>
  let r2 := r1.dropWhile fun c => c = '_' ∨ isWs c
  (consumeCI w2 r2).bind fun r3 =>
  let r4 := r3.dropWhile fun c => c = ':' ∨ isWs c
  let r5 := match r4 with
    | c :: t => if c = '"' ∨ c = '\x27' then t else r4
    | [] => r4
  let word := r5.takeWhile isWordChar
  if word = [] then none else some (String.mk word)

/-- JS `aiText.match(regex)?.[1]`: the leftmost match's capture. -/
def matchField (w1 w2 : String) (cs : List Char) : Option String :=
  (cs.tails.filterMap (fieldHere w1.toList w2.toList)).head?

/-- Source lines 1582-1587: the best-effort analysis object built when
the extracted braces substring is not valid JSON; the regex-extracted
fields default to the current lexical labels. -/
def fallbackGA (tendency needs : String) (aiText : List Char) :
    GeminiAnalysis :=
  { risk_level := some ((matchField ("risk") ("level") aiText).getD tendency),
    counseling_needed :=
      some ((matchField ("counseling") ("needed") aiText).getD needs),
    assessment_summary := some (String.mk (aiText.take 200) ++ "..."),
    raw_response := some (String.mk aiText) }

/-- Source lines 1591-1595: the analysis object built when the response
contains no brace-delimited substring at all. -/
def noJsonGA (aiText : List Char) : GeminiAnalysis :=
  { assessment_summary := some (String.mk (aiText.take 200) ++ "..."),
    raw_response := some (String.mk aiText),
    parse_error := some ("No JSON structure found in response") }

/-- Source lines 1599-1602: the analysis object recorded when the oracle
call itself throws. -/
def errorGA (msg : String) : GeminiAnalysis :=
  { error := some msg, fallback_used := true }

/-- The behavior of the external Gemini oracle during one call:
not configured, the call throws with a message, or it returns raw text. -/
inductive OracleBehavior
  | noOracle
  | failure (msg : String)
  | response (raw : String)

/-- The mutable classification state after the oracle phase. -/
structure OracleOut where
  score : Nat
  tendency : String
  needsCounselling : String
  geminiAnalysis : Option GeminiAnalysis
deriving Repr, DecidableEq

/-- Source lines 1558-1577: reconciliation with a successfully parsed
oracle judgment.  The oracle's level is adopted only when strictly higher
(the score is bumped to `max score (3 * level)`), and the counselling
recommendation is only ever raised. -/
def reconcile (score0 : Nat) (tendency0 needs0 : String)
    (ga : GeminiAnalysis) : OracleOut :=
  let cur := riskOrd tendency0
  let ai := riskOrdO ga.risk_level
  let tendency1 := if ai > cur then (ga.risk_level.getD tendency0) else tendency0
  let score1 := if ai > cur then Nat.max score0 (ai * 3) else score0
  let needs1 :=
    if ga.counseling_needed = some ("yes") ∧ needs0 ≠ "yes" then "yes"
    else if ga.counseling_needed = some ("advised") ∧ needs0 = "no" then "advised"
    else needs0
  ⟨score1, tendency1, needs1, some ga⟩

/-- Source lines 1548-1596: handling of the oracle's raw text for a
non-empty transcript.  Extract the braces substring; if it parses,
reconcile; if parsing fails, build the regex-fallback object; if there is
no braces substring, record a parse error.  No failure aborts the call. -/
def mainOracleText (score0 : Nat) (tendency0 needs0 : String)
    (aiText : List Char) : OracleOut :=
  match jsonExtract aiText with
  | some sub =>
      match jsonParse sub with
      | some obj => reconcile score0 tendency0 needs0 (gaOfJson obj)
      | none => ⟨score0, tendency0, needs0, some (fallbackGA tendency0 needs0 aiText)⟩
  | none => ⟨score0, tendency0, needs0, some (noJsonGA aiText)⟩

/-- Source lines 1604-1648: the no-transcript metadata branch.  When the
response parses and the lexical tendency is `no`, the oracle's labels are
adopted (`risk_level || 'low'`, `counseling_needed || 'advised'`) and the
score is set to 2; a parse failure or thrown call leaves everything
unchanged with a null analysis. -/
def metaOracleText (score0 : Nat) (tendency0 needs0 : String)
    (raw : List Char) : OracleOut :=
  match jsonExtract raw with
  | some sub =>
      match jsonParse sub with
      | some obj =>
          let ga := gaOfJson obj
          if tendency0 = "no" then
            ⟨2, jsOr ga.risk_level "low", jsOr ga.counseling_needed "advised",
             some ga⟩
          else ⟨score0, tendency0, needs0, some ga⟩
      | none => ⟨score0, tendency0, needs0, none⟩
  | none => ⟨score0, tendency0, needs0, none⟩

/-- Source lines 1502-1648: the whole oracle phase.  The main branch runs
for a configured oracle and a transcript with non-empty trim; otherwise a
configured oracle triggers the metadata branch. -/
def oracleStep (oracle : OracleBehavior) (transcriptText : String)
    (score0 : Nat) (tendency0 needs0 : String) : OracleOut :=
  match oracle with
  | .noOracle => ⟨score0, tendency0, needs0, none⟩
  | .failure msg =>
      if transcriptText ≠ "" ∧ jsTrim transcriptText.toList ≠ [] then
        ⟨score0, tendency0, needs0, some (errorGA msg)⟩
      else ⟨score0, tendency0, needs0, none⟩
  | .response raw =>
      if transcriptText ≠ "" ∧ jsTrim transcriptText.toList ≠ [] then
        mainOracleText score0 tendency0 needs0 raw.toList
      else metaOracleText score0 tendency0 needs0 raw.toList

/-- Source lines 1651-1657: the review synthesizer templates. -/
def reviewOf (tendency : String) (score : Nat)
    (detected : List DetectedTerm) : String :=
  if tendency = "severe" then
    "🚨 SEVERE RISK DETECTED - Immediate intervention required. Score: " ++
      toString score ++ ". Terms: " ++
      String.intercalate (", ") (detected.map DetectedTerm.term) ++
      ". Consider emergency services."
  else if tendency = "high" then
    "⚠️ HIGH RISK - Urgent counseling recommended. Score: " ++
      toString score ++ ". Monitor closely and provide immediate support resources."
  else if tendency = "medium" then
    "⚡ MODERATE CONCERN - Professional counseling advised. Score: " ++
      toString score ++ ". Provide mental health resources and follow up."
  else if tendency = "low" then
    "💭 MILD DISTRESS - Supportive listening recommended. Score: " ++
      toString score ++ ". Emotional support and coping strategies helpful."
  else "No significant risk indicators detected. Maintain supportive, empathetic tone."

/-- The engine's sole output type (source lines 1664-1672). -/
structure ClassificationResult where
  tendency : String
  needsCounselling : String
  review : String
  score : Nat
  detectedTerms : List DetectedTerm
  geminiAnalysis : Option GeminiAnalysis
  immediateIntervention : Bool
deriving Repr, DecidableEq

/-- `geminiAnalysis?.immediate_intervention === 'yes'`. -/
def gaImmediate : Option GeminiAnalysis → Bool
  | some ga => ga.immediate_intervention = some ("yes")
  | none => false

/-- Source lines 1650-1672: assembly of the result record from the
post-oracle state and the evidence list, including the derived
`immediateIntervention` flag of line 1671. -/
def assembleResult (o : OracleOut) (detected : List DetectedTerm) :
    ClassificationResult :=
  { tendency := o.tendency,
    needsCounselling := o.needsCounselling,
    review := reviewOf o.tendency o.score detected,
    score := o.score,
    detectedTerms := detected,
    geminiAnalysis := o.geminiAnalysis,
    immediateIntervention :=
      decide (o.tendency = "severe") ||
        detected.any (fun d => d.category = "critical_severe") ||
        gaImmediate o.geminiAnalysis }

/-- Source lines 1391-1673: the full classification engine, parameterized
by the behavior of the external oracle during this call. -/
def classifyRiskAndCounselling (oracle : OracleBehavior)
    (transcriptText : String) : ClassificationResult :=
  assembleResult
    (oracleStep oracle transcriptText (lexAnalyse transcriptText).1
      (lexTendency transcriptText)
      (recommendCounselling (lexTendency transcriptText)))
    (lexAnalyse transcriptText).2

/-- Depth scan for a balanced brace substring, accumulating characters. -/
def balScan : List Char → Nat → List Char → Option (List Char)
  | [], _, _ => none
  | c :: rest, depth, acc =>
      if c = '{' then balScan rest (depth + 1) (c :: acc)
      else if c = '}' then
        if depth = 1 then some (c :: acc).reverse
        else balScan rest (depth - 1) (c :: acc)
      else balScan rest depth (c :: acc)

/-- The first balanced brace-delimited substring of the text, if any. -/
def extractBalanced (cs : List Char) : Option (List Char) :=
  match cs.dropWhile (fun c => c ≠ '{') with
  | [] => none
  | c :: rest => balScan (c :: rest) 0 []

/-- Modelled from the spec: the oracle-response parsing chain `src/index.js`
is claimed to implement (spec section 4.3) — first direct JSON parsing of
the raw response, then JSON parsing of the first balanced brace-delimited
substring, then best-effort regex extraction of individual fields, and no
judgment at all when every strategy fails. -/
def specOracleParse (cs : List Char) : Option GeminiAnalysis :=
  match jsonParse cs with
  | some obj => some (gaOfJson obj)
  | none =>
      match (extractBalanced cs).bind jsonParse with
      | some obj => some (gaOfJson obj)
      | none =>
          let r := matchField ("risk") ("level") cs
          let c := matchField ("counseling") ("needed") cs
          if r.isSome ∨ c.isSome then
            some { risk_level := r, counseling_needed := c }
          else none

/-- A metadata-branch oracle response adopting low risk for the empty
transcript. -/
def metaRaw : String :=
  "\x7b\x22risk_level\x22: \x22low\x22, \x22counseling_needed\x22: \x22advised\x22\x7d"

/-- An oracle response judging medium risk and nothing else. -/
def medRaw : String := "\x7b\x22risk_level\x22: \x22medium\x22\x7d"

/-- An oracle response judging severe risk and nothing else. -/
def sevRaw : String := "\x7b\x22risk_level\x22: \x22severe\x22\x7d"

/-- A well-formed severe judgment embedded between two stretches of prose
and followed by a second brace-delimited fragment. -/
def twoObjRaw : String :=
  "x \x7b\x22risk_level\x22: \x22severe\x22\x7d y \x7b\x22a\x22: \x22b\x22\x7d z"

/-- The result the engine produces for a transcript with no findings and
no oracle contribution. -/
def zeroResult : ClassificationResult :=
  { tendency := "no", needsCounselling := "no",
    review := "No significant risk indicators detected. Maintain supportive, empathetic tone.",
    score := 0, detectedTerms := [], geminiAnalysis := none,
    immediateIntervention := false }

/-- How many terms of a tier the lexical pass matches in a transcript. -/
def tierMatchCount (tier : List String) (t : String) : Nat :=
  (tier.filter fun term => isSub term.toList (t.toList.map lowerChar)).length

/-- How many immediate-risk patterns match in a transcript. -/
def patMatchCount (t : String) : Nat :=
  (immediateRiskPatterns.filter fun p => rtest p (t.toList.map lowerChar)).length

/-- Number of evidence entries with the given term and category produced
by the lexical pass for a transcript. -/
def evidenceCount (t : String) (term cat : String) : Nat :=
  ((lexAnalyse t).2).count ⟨term, cat⟩

theorem riskOrd_le_four (s : String) : riskOrd s ≤ 4 := by
  unfold riskOrd; split_ifs <;> omega

theorem riskOrdO_le_four (o : Option String) : riskOrdO o ≤ 4 := by
  cases o with
  | none => simp [riskOrdO]
  | some s => simpa [riskOrdO] using riskOrd_le_four s

theorem counsOrd_le_two (s : String) : counsOrd s ≤ 2 := by
  unfold counsOrd; split_ifs <;> omega

theorem riskOrd_tendencyOfScore (x : Nat) :
    riskOrd (tendencyOfScore x) =
      if x ≥ 10 then 4 else if x ≥ 6 then 3 else if x ≥ 4 then 2
      else if x ≥ 1 then 1 else 0 := by
  unfold tendencyOfScore
  split_ifs <;> rfl

theorem tendencyOfScore_mono {a b : Nat} (h : b ≤ a) :
    riskOrd (tendencyOfScore b) ≤ riskOrd (tendencyOfScore a) := by
  rw [riskOrd_tendencyOfScore, riskOrd_tendencyOfScore]
  split_ifs <;> omega

theorem reconcile_tendency_ge (s : Nat) (tn nd : String) (ga : GeminiAnalysis) :
    riskOrd tn ≤ riskOrd (reconcile s tn nd ga).tendency := by
  unfold reconcile
  dsimp only
  split_ifs with h
  · cases hrl : ga.risk_level with
    | none => rw [hrl] at h; simp [riskOrdO] at h
    | some s' =>
        rw [hrl] at h
        simp only [riskOrdO] at h
        simpa using h.le
  · exact le_refl _

theorem mainOracleText_tendency_ge (s : Nat) (tn nd : String) (cs : List Char) :
    riskOrd tn ≤ riskOrd (mainOracleText s tn nd cs).tendency := by
  unfold mainOracleText
  split
  · split
    · exact reconcile_tendency_ge ..
    · exact le_refl _
  · exact le_refl _

theorem metaOracleText_tendency_ge (s : Nat) (tn nd : String) (cs : List Char) :
    riskOrd tn ≤ riskOrd (metaOracleText s tn nd cs).tendency := by
  unfold metaOracleText
  split
  · split
    · dsimp only
      split_ifs with h
      · rw [h]; simp [riskOrd]
      · exact le_refl _
    · exact le_refl _
  · exact le_refl _

theorem oracleStep_tendency_ge (o : OracleBehavior) (t : String) (s : Nat)
    (tn nd : String) : riskOrd tn ≤ riskOrd (oracleStep o t s tn nd).tendency := by
  cases o with
  | noOracle => exact le_refl _
  | failure m =>
      unfold oracleStep
      split_ifs <;> exact le_refl _
  | response raw =>
      unfold oracleStep
      split_ifs
      · exact mainOracleText_tendency_ge ..
      · exact metaOracleText_tendency_ge ..

theorem reconcile_couns_ge (s : Nat) (tn nd : String) (ga : GeminiAnalysis) :
    counsOrd nd ≤ counsOrd (reconcile s tn nd ga).needsCounselling := by
  unfold reconcile
  dsimp only
  split_ifs with h1 h2
  · calc counsOrd nd ≤ 2 := counsOrd_le_two nd
      _ = counsOrd ("yes") := by rfl
  · rw [h2.2]; simp [counsOrd]
  · exact le_refl _

theorem mainOracleText_couns_ge (s : Nat) (tn nd : String) (cs : List Char) :
    counsOrd nd ≤ counsOrd (mainOracleText s tn nd cs).needsCounselling := by
  unfold mainOracleText
  split
  · split
    · exact reconcile_couns_ge ..
    · exact le_refl _
  · exact le_refl _

theorem metaOracleText_couns_ge (s : Nat) (tn nd : String) (cs : List Char)
    (hno : tn = "no" → nd = "no") :
    counsOrd nd ≤ counsOrd (metaOracleText s tn nd cs).needsCounselling := by
  unfold metaOracleText
  split
  · split
    · dsimp only
      split_ifs with h
      · rw [hno h]; simp [counsOrd]
      · exact le_refl _
    · exact le_refl _
  · exact le_refl _

theorem oracleStep_couns_ge (o : OracleBehavior) (t : String) (s : Nat)
    (tn nd : String) (hno : tn = "no" → nd = "no") :
    counsOrd nd ≤ counsOrd (oracleStep o t s tn nd).needsCounselling := by
  cases o with
  | noOracle => exact le_refl _
  | failure m =>
      unfold oracleStep
      split_ifs <;> exact le_refl _
  | response raw =>
      unfold oracleStep
      split_ifs
      · exact mainOracleText_couns_ge ..
      · exact metaOracleText_couns_ge _ _ _ _ hno

theorem reconcile_score_ok (s : Nat) (nd : String) (ga : GeminiAnalysis) :
    riskOrd (reconcile s (tendencyOfScore s) nd ga).tendency ≤
      riskOrd (tendencyOfScore (reconcile s (tendencyOfScore s) nd ga).score) := by
  unfold reconcile
  dsimp only
  split_ifs with h
  · cases hrl : ga.risk_level with
    | none => rw [hrl] at h; simp [riskOrdO] at h
    | some s' =>
        rw [hrl] at h
        simp only [riskOrdO] at h
        simp only [Option.getD_some, riskOrdO]
        have hle : riskOrd s' ≤ 4 := riskOrd_le_four s'
        have h1 : 1 ≤ riskOrd s' := by omega
        have hmono : riskOrd (tendencyOfScore (riskOrd s' * 3)) ≤
            riskOrd (tendencyOfScore (Nat.max s (riskOrd s' * 3))) :=
          tendencyOfScore_mono (Nat.le_max_right _ _)
        have hbase : riskOrd s' ≤ riskOrd (tendencyOfScore (riskOrd s' * 3)) := by
          rw [riskOrd_tendencyOfScore]
          split_ifs <;> omega
        omega
  · exact le_refl _

theorem mainOracleText_score_ok (s : Nat) (nd : String) (cs : List Char) :
    riskOrd (mainOracleText s (tendencyOfScore s) nd cs).tendency ≤
      riskOrd (tendencyOfScore (mainOracleText s (tendencyOfScore s) nd cs).score) := by
  unfold mainOracleText
  split
  · split
    · exact reconcile_score_ok ..
    · exact le_refl _
  · exact le_refl _

theorem assembleResult_imm_iff (o : OracleOut) (ev : List DetectedTerm) :
    (assembleResult o ev).immediateIntervention = true ↔
      (o.tendency = "severe" ∨ (∃ d ∈ ev, d.category = "critical_severe") ∨
        ∃ ga, o.geminiAnalysis = some ga ∧
          ga.immediate_intervention = some ("yes")) := by
  cases hga : o.geminiAnalysis with
  | none =>
      simp [assembleResult, gaImmediate, hga, List.any_eq_true]
  | some a =>
      simp [assembleResult, gaImmediate, hga, List.any_eq_true]
      rw [or_assoc]

theorem count_tier_le_one (l : List String) (hnd : l.Nodup) (p : String → Bool)
    (cat term : String) :
    ((l.filter p).map (fun s => (⟨s, cat⟩ : DetectedTerm))).count ⟨term, cat⟩ ≤ 1 := by
  have hinj : Function.Injective (fun s => (⟨s, cat⟩ : DetectedTerm)) := by
    intro a b h
    simpa [DetectedTerm.mk.injEq] using h
  calc ((l.filter p).map (fun s => (⟨s, cat⟩ : DetectedTerm))).count ⟨term, cat⟩
      ≤ (l.map (fun s => (⟨s, cat⟩ : DetectedTerm))).count ⟨term, cat⟩ :=
        ((l.filter_sublist).map _).count_le _
    _ = l.count term := List.count_map_of_injective l _ hinj term
    _ ≤ 1 := List.nodup_iff_count_le_one.mp hnd term

theorem count_tier_other_cat (l : List String) (p : String → Bool)
    (cat cat' term : String) (h : ¬ cat = cat') :
    ((l.filter p).map (fun s => (⟨s, cat⟩ : DetectedTerm))).count ⟨term, cat'⟩ = 0 := by
  rw [List.count_eq_zero]
  intro hmem
  rw [List.mem_map] at hmem
  obtain ⟨s, _, he⟩ := hmem
  simp only [DetectedTerm.mk.injEq] at he
  exact h he.2

theorem count_pat_map (l : List (List RTok)) (x : DetectedTerm)
    (h : ¬ x = ⟨"immediate_risk_pattern", "critical_severe"⟩) :
    (l.map (fun _ => (⟨"immediate_risk_pattern", "critical_severe"⟩ :
      DetectedTerm))).count x = 0 := by
  rw [List.count_eq_zero]
  intro hmem
  rw [List.mem_map] at hmem
  obtain ⟨s, _, he⟩ := hmem
  exact h he.symm

theorem count_tier_notmem (l : List String) (p : String → Bool)
    (cat term : String) (h : term ∉ l) :
    ((l.filter p).map (fun s => (⟨s, cat⟩ : DetectedTerm))).count ⟨term, cat⟩ = 0 := by
  rw [List.count_eq_zero]
  intro hmem
  rw [List.mem_map] at hmem
  obtain ⟨s, hs, he⟩ := hmem
  simp only [DetectedTerm.mk.injEq] at he
  exact h (he.1 ▸ List.mem_of_mem_filter hs)

theorem metaOracleText_extract_none (s : Nat) (tn nd : String) (cs : List Char)
    (h : jsonExtract cs = none) : metaOracleText s tn nd cs = ⟨s, tn, nd, none⟩ := by
  unfold metaOracleText
  rw [h]

theorem metaOracleText_parse_none (s : Nat) (tn nd : String) (cs sub : List Char)
    (h1 : jsonExtract cs = some sub) (h2 : jsonParse sub = none) :
    metaOracleText s tn nd cs = ⟨s, tn, nd, none⟩ := by
  unfold metaOracleText
  rw [h1]
  dsimp only
  rw [h2]

theorem classify_empty_zero (oracle : OracleBehavior)
    (h : oracleStep oracle "" 0 ("no") ("no") = ⟨0, "no", "no", none⟩) :
    classifyRiskAndCounselling oracle "" = zeroResult := by
  have h0 : lexAnalyse "" = (0, []) := by decide
  have h1 : lexTendency "" = "no" := by decide
  have h2 : recommendCounselling ("no") = "no" := by decide
  unfold classifyRiskAndCounselling
  rw [h0, h1, h2]
  dsimp only
  rw [h]
  decide

/-- Claim C1: for every classification result, the `immediateIntervention`
flag is true if and only if the final risk level is severe, or the
evidence list contains a `critical_severe` entry, or an oracle judgment is
present and declares immediate intervention with the string `yes`; it is
never set independently of these three conditions. -/
theorem claim_C1_immediate_intervention_iff (oracle : OracleBehavior)
    (t : String) :
    (classifyRiskAndCounselling oracle t).immediateIntervention = true ↔
      ((classifyRiskAndCounselling oracle t).tendency = "severe" ∨
        (∃ d ∈ (classifyRiskAndCounselling oracle t).detectedTerms,
          d.category = "critical_severe") ∨
        ∃ ga, (classifyRiskAndCounselling oracle t).geminiAnalysis = some ga ∧
          ga.immediate_intervention = some ("yes")) :=
  assembleResult_imm_iff _ _

/-- Claim C2: for every transcript and every possible oracle behavior
(absent, throwing, or answering with arbitrary raw text), the final risk
level is never strictly below the lexical-only risk level in the ordinal
order no < low < medium < high < severe. -/
theorem claim_C2_escalation_only (oracle : OracleBehavior) (t : String) :
    riskOrd (lexTendency t) ≤
      riskOrd (classifyRiskAndCounselling oracle t).tendency :=
  oracleStep_tendency_ge oracle t (lexAnalyse t).1 (lexTendency t)
    (recommendCounselling (lexTendency t))

/-- Claim C5 counterexample: with lexical level `no` and an oracle
response judging severe risk without a counselling field, the engine
returns the adopted level severe together with counselling `no`, strictly
below the fixed mapping's value `yes` for severe — refuting the claim
that counselling is never below the mapping applied to the final level. -/
theorem claim_C5_counterexample :
    (classifyRiskAndCounselling (.response sevRaw) ("hello")).tendency =
        "severe" ∧
      (classifyRiskAndCounselling (.response sevRaw) ("hello")).needsCounselling =
        "no" ∧
      recommendCounselling ("severe") = "yes" := by
  decide

/-- Claim C5 amended: the counselling recommendation equals the fixed
mapping applied to the *lexical* risk level, possibly raised (never
lowered) by the oracle's own counselling judgment; it is never below the
mapping's value at the lexical level.  (Escalating the risk level does
not re-derive counselling, so it may sit below the mapping's value at the
*final* level.) -/
theorem claim_C5_amended_counselling_ge (oracle : OracleBehavior)
    (t : String) :
    counsOrd (recommendCounselling (lexTendency t)) ≤
      counsOrd (classifyRiskAndCounselling oracle t).needsCounselling :=
  oracleStep_couns_ge oracle t (lexAnalyse t).1 (lexTendency t)
    (recommendCounselling (lexTendency t))
    (fun e => by rw [e]; rfl)

/-- Claim C8: under the lexical scorer alone the score-to-level mapping
is monotone — a transcript with a score at least as large as another
receives a risk level at least as high in the ordinal order. -/
theorem claim_C8_monotonicity (t1 t2 : String)
    (h : lexScore t2 ≤ lexScore t1) :
    riskOrd (lexTendency t2) ≤ riskOrd (lexTendency t1) :=
  tendencyOfScore_mono h

/-- Witness for claim C8 at the transcripts `suicide` and the empty
string. -/
theorem claim_C8_witness :
    lexScore ("") ≤ lexScore ("suicide") ∧
      riskOrd (lexTendency ("")) ≤ riskOrd (lexTendency ("suicide")) :=
  ⟨by decide, claim_C8_monotonicity ("suicide") ("") (by decide)⟩

/-- Claim C3 counterexample: with an oracle configured whose response to
the no-transcript metadata prompt parses as a low-risk judgment,
classifying the empty string returns tendency `low` with score 2 — not
the all-`no`, score-0 result the claim promises for every
configuration. -/
theorem claim_C3_counterexample :
    (classifyRiskAndCounselling (.response metaRaw) ("")).tendency = "low" ∧
      (classifyRiskAndCounselling (.response metaRaw) ("")).score = 2 ∧
      (classifyRiskAndCounselling (.response metaRaw) ("")).needsCounselling =
        "advised" := by
  decide

/-- Claim C3 amended: classifying the empty string always terminates and
always yields an empty evidence list, and it returns exactly the
`no`/`no`/score-0/no-evidence/no-intervention result whenever no oracle
is configured, the oracle call throws, or the oracle's response contains
no parsable JSON; only a configured oracle returning parsable JSON can
raise the empty-transcript result through the metadata branch. -/
theorem claim_C3_amended_empty_transcript :
    classifyRiskAndCounselling .noOracle ("") = zeroResult ∧
      (∀ m, classifyRiskAndCounselling (.failure m) ("") = zeroResult) ∧
      (∀ raw, jsonExtract raw.toList = none →
        classifyRiskAndCounselling (.response raw) ("") = zeroResult) ∧
      (∀ raw sub, jsonExtract raw.toList = some sub → jsonParse sub = none →
        classifyRiskAndCounselling (.response raw) ("") = zeroResult) ∧
      ∀ oracle, (classifyRiskAndCounselling oracle ("")).detectedTerms = [] := by
  refine ⟨by decide, ?_, ?_, ?_, ?_⟩
  · intro m
    apply classify_empty_zero
    simp [oracleStep]
  · intro raw h
    apply classify_empty_zero
    unfold oracleStep
    dsimp only
    rw [if_neg (fun hc => hc.1 rfl)]
    exact metaOracleText_extract_none 0 ("no") ("no") raw.toList h
  · intro raw sub h1 h2
    apply classify_empty_zero
    unfold oracleStep
    dsimp only
    rw [if_neg (fun hc => hc.1 rfl)]
    exact metaOracleText_parse_none 0 ("no") ("no") raw.toList sub h1 h2
  · intro oracle
    rfl

/-- Witness for the amended claim C3, discharging its hypotheses at a
throwing oracle, a brace-free response, and a malformed braces
response. -/
theorem claim_C3_witness :
    classifyRiskAndCounselling (.failure ("boom")) ("") = zeroResult ∧
      classifyRiskAndCounselling (.response ("no json here")) ("") = zeroResult ∧
      classifyRiskAndCounselling (.response ("\x7bnot json\x7d")) ("") =
        zeroResult :=
  ⟨claim_C3_amended_empty_transcript.2.1 ("boom"),
    claim_C3_amended_empty_transcript.2.2.1 ("no json here") (by decide),
    claim_C3_amended_empty_transcript.2.2.2.1 ("\x7bnot json\x7d")
      ("\x7bnot json\x7d").toList (by decide) (by decide)⟩

/-- Claim C4 counterexample: with lexical level `no` and an oracle
judging `medium`, the adopted level is medium but the adjusted score is
`max 0 (2*3) = 6`, and re-applying the threshold mapping to 6 yields
`high`, not the final level `medium` — refuting the claim that the
returned score re-maps exactly to the final risk level. -/
theorem claim_C4_counterexample :
    lexTendency ("hello") = "no" ∧
      (classifyRiskAndCounselling (.response medRaw) ("hello")).tendency =
        "medium" ∧
      (classifyRiskAndCounselling (.response medRaw) ("hello")).score = 6 ∧
      tendencyOfScore 6 = "high" := by
  decide

/-- Claim C4 amended: for every transcript whose trim is non-empty (the
main reconciliation path), the returned score always meets the final risk
level's threshold — re-applying the threshold mapping to the returned
score yields a level at least as high as the final level, though for an
adopted `medium` it can overshoot to `high`.  (The no-transcript metadata
branch instead pins the score to 2 regardless of the adopted level.) -/
theorem claim_C4_amended_score_meets_threshold (oracle : OracleBehavior)
    (t : String) (h : jsTrim t.toList ≠ []) :
    riskOrd (classifyRiskAndCounselling oracle t).tendency ≤
      riskOrd (tendencyOfScore (classifyRiskAndCounselling oracle t).score) := by
  have ht : t ≠ "" := by
    intro e
    rw [e] at h
    exact h rfl
  cases oracle with
  | noOracle => exact le_refl _
  | failure m =>
      unfold classifyRiskAndCounselling assembleResult oracleStep
      dsimp only
      split_ifs <;> exact le_refl _
  | response raw =>
      unfold classifyRiskAndCounselling assembleResult oracleStep
      dsimp only
      rw [if_pos ⟨ht, h⟩]
      exact mainOracleText_score_ok (lexAnalyse t).1
        (recommendCounselling (lexTendency t)) raw.toList

/-- Witness for the amended claim C4 at the transcript `hello` and a
medium-judging oracle. -/
theorem claim_C4_witness :
    jsTrim ("hello").toList ≠ [] ∧
      riskOrd (classifyRiskAndCounselling (.response medRaw) ("hello")).tendency ≤
        riskOrd (tendencyOfScore
          (classifyRiskAndCounselling (.response medRaw) ("hello")).score) :=
  ⟨by decide,
    claim_C4_amended_score_meets_threshold (.response medRaw) ("hello")
      (by decide)⟩

/-- Claim C9 counterexample: when the transcript is empty and the oracle
call throws, the metadata branch's catch block leaves `geminiAnalysis`
null — consumers observe no analysis at all, refuting the claim that a
failed oracle call always leaves a non-null error object. -/
theorem claim_C9_counterexample :
    (classifyRiskAndCounselling (.failure ("boom")) ("")).geminiAnalysis =
      none := by
  decide

/-- Claim C9 amended: when the transcript has non-empty trim (the main
path) and the oracle call throws, the returned `geminiAnalysis` is the
non-null object carrying the error message and the fallback marker. -/
theorem claim_C9_amended_error_object (m t : String)
    (h : jsTrim t.toList ≠ []) :
    (classifyRiskAndCounselling (.failure m) t).geminiAnalysis =
      some (errorGA m) := by
  have ht : t ≠ "" := by
    intro e
    rw [e] at h
    exact h rfl
  unfold classifyRiskAndCounselling assembleResult oracleStep
  dsimp only
  rw [if_pos ⟨ht, h⟩]

/-- Witness for the amended claim C9 at the transcript `hello` and the
thrown message `boom`. -/
theorem claim_C9_witness :
    jsTrim ("hello").toList ≠ [] ∧
      (classifyRiskAndCounselling (.failure ("boom")) ("hello")).geminiAnalysis =
        some (errorGA ("boom")) :=
  ⟨by decide, claim_C9_amended_error_object ("boom") ("hello") (by decide)⟩

/-- Claim C6: under the lexical path alone, a transcript matching exactly
one CRITICAL_SEVERE term and nothing else scores 8 and reaches at least
the `high` level, and a transcript matching exactly one immediate-risk
pattern and nothing else scores 10 and reaches `severe` (the pattern
weight alone meets the severe threshold). -/
theorem claim_C6_single_signal_thresholds (t u : String) :
    (tierMatchCount criticalSevereTerms t = 1 ∧
        tierMatchCount severePlanTerms t = 0 ∧ tierMatchCount highTerms t = 0 ∧
        tierMatchCount mediumTerms t = 0 ∧ tierMatchCount lowTerms t = 0 ∧
        patMatchCount t = 0 →
      lexScore t = 8 ∧ riskOrd ("high") ≤ riskOrd (lexTendency t)) ∧
    (patMatchCount u = 1 ∧ tierMatchCount criticalSevereTerms u = 0 ∧
        tierMatchCount severePlanTerms u = 0 ∧ tierMatchCount highTerms u = 0 ∧
        tierMatchCount mediumTerms u = 0 ∧ tierMatchCount lowTerms u = 0 →
      lexScore u = 10 ∧ lexTendency u = "severe") := by
  constructor
  · rintro ⟨h1, h2, h3, h4, h5, h6⟩
    have hd : lexScore t =
        8 * tierMatchCount criticalSevereTerms t +
          6 * tierMatchCount severePlanTerms t +
          3 * tierMatchCount highTerms t +
          2 * tierMatchCount mediumTerms t +
          1 * tierMatchCount lowTerms t + 10 * patMatchCount t := rfl
    have hs : lexScore t = 8 := by
      rw [hd, h1, h2, h3, h4, h5, h6]
    have hlt : lexTendency t = tendencyOfScore (lexScore t) := rfl
    refine ⟨hs, ?_⟩
    rw [hlt, hs]
    decide
  · rintro ⟨h1, h2, h3, h4, h5, h6⟩
    have hd : lexScore u =
        8 * tierMatchCount criticalSevereTerms u +
          6 * tierMatchCount severePlanTerms u +
          3 * tierMatchCount highTerms u +
          2 * tierMatchCount mediumTerms u +
          1 * tierMatchCount lowTerms u + 10 * patMatchCount u := rfl
    have hs : lexScore u = 10 := by
      rw [hd, h1, h2, h3, h4, h5, h6]
    have hlt : lexTendency u = tendencyOfScore (lexScore u) := rfl
    refine ⟨hs, ?_⟩
    rw [hlt, hs]
    decide

/-- Witness for claim C6 at the transcripts `suicide` (one critical term,
nothing else) and `tonight i` (one immediate-risk pattern, nothing
else). -/
theorem claim_C6_witness :
    (lexScore ("suicide") = 8 ∧
        riskOrd ("high") ≤ riskOrd (lexTendency ("suicide"))) ∧
      lexScore ("tonight i") = 10 ∧ lexTendency ("tonight i") = "severe" :=
  ⟨(claim_C6_single_signal_thresholds ("suicide") ("tonight i")).1 (by decide),
    (claim_C6_single_signal_thresholds ("suicide") ("tonight i")).2 (by decide)⟩

/-- Claim C10: each fixed term of each tier contributes at most one
evidence entry per classification regardless of how often the phrase
occurs in the transcript (substring containment is boolean), and each
immediate-risk pattern contributes at most once per pattern (at most five
synthetic entries). -/
theorem claim_C10_once_per_term (t : String) (term : String) :
    (term ∈ criticalSevereTerms → evidenceCount t term ("critical_severe") ≤ 1) ∧
      (term ∈ severePlanTerms → evidenceCount t term ("severe_plan") ≤ 1) ∧
      (term ∈ highTerms → evidenceCount t term ("high") ≤ 1) ∧
      (term ∈ mediumTerms → evidenceCount t term ("medium") ≤ 1) ∧
      (term ∈ lowTerms → evidenceCount t term ("low") ≤ 1) ∧
      evidenceCount t ("immediate_risk_pattern") ("critical_severe") ≤
        immediateRiskPatterns.length := by
  have hev : (lexAnalyse t).2 =
      (criticalSevereTerms.filter fun s =>
          isSub s.toList (t.toList.map lowerChar)).map
        (fun s => (⟨s, "critical_severe"⟩ : DetectedTerm)) ++
      (severePlanTerms.filter fun s =>
          isSub s.toList (t.toList.map lowerChar)).map
        (fun s => (⟨s, "severe_plan"⟩ : DetectedTerm)) ++
      (highTerms.filter fun s =>
          isSub s.toList (t.toList.map lowerChar)).map
        (fun s => (⟨s, "high"⟩ : DetectedTerm)) ++
      (mediumTerms.filter fun s =>
          isSub s.toList (t.toList.map lowerChar)).map
        (fun s => (⟨s, "medium"⟩ : DetectedTerm)) ++
      (lowTerms.filter fun s =>
          isSub s.toList (t.toList.map lowerChar)).map
        (fun s => (⟨s, "low"⟩ : DetectedTerm)) ++
      (immediateRiskPatterns.filter fun p =>
          rtest p (t.toList.map lowerChar)).map
        (fun _ => (⟨"immediate_risk_pattern", "critical_severe"⟩ :
          DetectedTerm)) := rfl
  refine ⟨?_, ?_, ?_, ?_, ?_, ?_⟩
  · intro hmem
    unfold evidenceCount
    rw [hev]
    simp only [List.count_append]
    have b1 := count_tier_le_one criticalSevereTerms (by decide)
      (fun s => isSub s.toList (t.toList.map lowerChar)) ("critical_severe") term
    have b2 := count_tier_other_cat severePlanTerms
      (fun s => isSub s.toList (t.toList.map lowerChar)) ("severe_plan")
      ("critical_severe") term (by decide)
    have b3 := count_tier_other_cat highTerms
      (fun s => isSub s.toList (t.toList.map lowerChar)) ("high")
      ("critical_severe") term (by decide)
    have b4 := count_tier_other_cat mediumTerms
      (fun s => isSub s.toList (t.toList.map lowerChar)) ("medium")
      ("critical_severe") term (by decide)
    have b5 := count_tier_other_cat lowTerms
      (fun s => isSub s.toList (t.toList.map lowerChar)) ("low")
      ("critical_severe") term (by decide)
    have b6 := count_pat_map
      (immediateRiskPatterns.filter fun p => rtest p (t.toList.map lowerChar))
      ⟨term, "critical_severe"⟩
      (by
        intro he
        simp only [DetectedTerm.mk.injEq] at he
        rw [he.1] at hmem
        exact absurd hmem (by decide))
    omega
  · intro hmem
    unfold evidenceCount
    rw [hev]
    simp only [List.count_append]
    have b1 := count_tier_other_cat criticalSevereTerms
      (fun s => isSub s.toList (t.toList.map lowerChar)) ("critical_severe")
      ("severe_plan") term (by decide)
    have b2 := count_tier_le_one severePlanTerms (by decide)
      (fun s => isSub s.toList (t.toList.map lowerChar)) ("severe_plan") term
    have b3 := count_tier_other_cat highTerms
      (fun s => isSub s.toList (t.toList.map lowerChar)) ("high")
      ("severe_plan") term (by decide)
    have b4 := count_tier_other_cat mediumTerms
      (fun s => isSub s.toList (t.toList.map lowerChar)) ("medium")
      ("severe_plan") term (by decide)
    have b5 := count_tier_other_cat lowTerms
      (fun s => isSub s.toList (t.toList.map lowerChar)) ("low")
      ("severe_plan") term (by decide)
    have b6 := count_pat_map
      (immediateRiskPatterns.filter fun p => rtest p (t.toList.map lowerChar))
      ⟨term, "severe_plan"⟩
      (by
        intro he
        simp only [DetectedTerm.mk.injEq] at he
        exact absurd he.2 (by decide))
    omega
  · intro hmem
    unfold evidenceCount
    rw [hev]
    simp only [List.count_append]
    have b1 := count_tier_other_cat criticalSevereTerms
      (fun s => isSub s.toList (t.toList.map lowerChar)) ("critical_severe")
      ("high") term (by decide)
    have b2 := count_tier_other_cat severePlanTerms
      (fun s => isSub s.toList (t.toList.map lowerChar)) ("severe_plan")
      ("high") term (by decide)
    have b3 := count_tier_le_one highTerms (by decide)
      (fun s => isSub s.toList (t.toList.map lowerChar)) ("high") term
    have b4 := count_tier_other_cat mediumTerms
      (fun s => isSub s.toList (t.toList.map lowerChar)) ("medium")
      ("high") term (by decide)
    have b5 := count_tier_other_cat lowTerms
      (fun s => isSub s.toList (t.toList.map lowerChar)) ("low")
      ("high") term (by decide)
    have b6 := count_pat_map
      (immediateRiskPatterns.filter fun p => rtest p (t.toList.map lowerChar))
      ⟨term, "high"⟩
      (by
        intro he
        simp only [DetectedTerm.mk.injEq] at he
        exact absurd he.2 (by decide))
    omega
  · intro hmem
    unfold evidenceCount
    rw [hev]
    simp only [List.count_append]
    have b1 := count_tier_other_cat criticalSevereTerms
      (fun s => isSub s.toList (t.toList.map lowerChar)) ("critical_severe")
      ("medium") term (by decide)
    have b2 := count_tier_other_cat severePlanTerms
      (fun s => isSub s.toList (t.toList.map lowerChar)) ("severe_plan")
      ("medium") term (by decide)
    have b3 := count_tier_other_cat highTerms
      (fun s => isSub s.toList (t.toList.map lowerChar)) ("high")
      ("medium") term (by decide)
    have b4 := count_tier_le_one mediumTerms (by decide)
      (fun s => isSub s.toList (t.toList.map lowerChar)) ("medium") term
    have b5 := count_tier_other_cat lowTerms
      (fun s => isSub s.toList (t.toList.map lowerChar)) ("low")
      ("medium") term (by decide)
    have b6 := count_pat_map
      (immediateRiskPatterns.filter fun p => rtest p (t.toList.map lowerChar))
      ⟨term, "medium"⟩
      (by
        intro he
        simp only [DetectedTerm.mk.injEq] at he
        exact absurd he.2 (by decide))
    omega
  · intro hmem
    unfold evidenceCount
    rw [hev]
    simp only [List.count_append]
    have b1 := count_tier_other_cat criticalSevereTerms
      (fun s => isSub s.toList (t.toList.map lowerChar)) ("critical_severe")
      ("low") term (by decide)
    have b2 := count_tier_other_cat severePlanTerms
      (fun s => isSub s.toList (t.toList.map lowerChar)) ("severe_plan")
      ("low") term (by decide)
    have b3 := count_tier_other_cat highTerms
      (fun s => isSub s.toList (t.toList.map lowerChar)) ("high")
      ("low") term (by decide)
    have b4 := count_tier_other_cat mediumTerms
      (fun s => isSub s.toList (t.toList.map lowerChar)) ("medium")
      ("low") term (by decide)
    have b5 := count_tier_le_one lowTerms (by decide)
      (fun s => isSub s.toList (t.toList.map lowerChar)) ("low") term
    have b6 := count_pat_map
      (immediateRiskPatterns.filter fun p => rtest p (t.toList.map lowerChar))
      ⟨term, "low"⟩
      (by
        intro he
        simp only [DetectedTerm.mk.injEq] at he
        exact absurd he.2 (by decide))
    omega
  · unfold evidenceCount
    rw [hev]
    simp only [List.count_append]
    have b1 := count_tier_notmem criticalSevereTerms
      (fun s => isSub s.toList (t.toList.map lowerChar)) ("critical_severe")
      ("immediate_risk_pattern") (by decide)
    have b2 := count_tier_other_cat severePlanTerms
      (fun s => isSub s.toList (t.toList.map lowerChar)) ("severe_plan")
      ("critical_severe") ("immediate_risk_pattern") (by decide)
    have b3 := count_tier_other_cat highTerms
      (fun s => isSub s.toList (t.toList.map lowerChar)) ("high")
      ("critical_severe") ("immediate_risk_pattern") (by decide)
    have b4 := count_tier_other_cat mediumTerms
      (fun s => isSub s.toList (t.toList.map lowerChar)) ("medium")
      ("critical_severe") ("immediate_risk_pattern") (by decide)
    have b5 := count_tier_other_cat lowTerms
      (fun s => isSub s.toList (t.toList.map lowerChar)) ("low")
      ("critical_severe") ("immediate_risk_pattern") (by decide)
    have b6 : ((immediateRiskPatterns.filter fun p =>
        rtest p (t.toList.map lowerChar)).map
          (fun _ => (⟨"immediate_risk_pattern", "critical_severe"⟩ :
            DetectedTerm))).count
          ⟨"immediate_risk_pattern", "critical_severe"⟩ ≤
        immediateRiskPatterns.length := by
      calc ((immediateRiskPatterns.filter fun p =>
            rtest p (t.toList.map lowerChar)).map
              (fun _ => (⟨"immediate_risk_pattern", "critical_severe"⟩ :
                DetectedTerm))).count
              ⟨"immediate_risk_pattern", "critical_severe"⟩
          ≤ ((immediateRiskPatterns.filter fun p =>
              rtest p (t.toList.map lowerChar)).map
                (fun _ => (⟨"immediate_risk_pattern", "critical_severe"⟩ :
                  DetectedTerm))).length := List.count_le_length _ _
        _ = (immediateRiskPatterns.filter fun p =>
              rtest p (t.toList.map lowerChar)).length := List.length_map _ _
        _ ≤ immediateRiskPatterns.length := List.length_filter_le _ _
    omega

/-- Witness for claim C10 at a transcript repeating the low-tier term
`sad` twice, whose evidence nonetheless lists `sad` once. -/
theorem claim_C10_witness :
    evidenceCount ("so sad, very sad today") ("sad") ("low") ≤ 1 ∧
      evidenceCount ("so sad, very sad today") ("immediate_risk_pattern")
          ("critical_severe") ≤ immediateRiskPatterns.length :=
  ⟨(claim_C10_once_per_term ("so sad, very sad today") ("sad")).2.2.2.2.1
      (by decide),
    (claim_C10_once_per_term ("so sad, very sad today") ("sad")).2.2.2.2.2⟩

/-- Claim C7 counterexample: on a response holding a well-formed severe
judgment followed by prose and a second brace fragment, the claimed
strategy chain (direct parse, then first *balanced* braces substring,
then regex fields) produces a severe judgment, but the engine — which
extracts greedily from the first `\x7b` to the last `\x7d` and never
direct-parses the raw response — fails to parse, regex-extracts nothing,
defaults the judgment to the lexical level `no`, and never escalates. -/
theorem claim_C7_counterexample :
    (specOracleParse twoObjRaw.toList).map GeminiAnalysis.risk_level =
        some (some ("severe")) ∧
      ((classifyRiskAndCounselling (.response twoObjRaw)
            ("hello")).geminiAnalysis).map GeminiAnalysis.risk_level =
        some (some ("no")) ∧
      (classifyRiskAndCounselling (.response twoObjRaw) ("hello")).tendency =
        "no" := by
  decide

/-- Claim C7 amended: for a non-empty transcript the oracle text handler
always attaches a non-null analysis object, and it can change the risk
tendency only when the greedy first-`\x7b`-to-last-`\x7d` substring
exists and parses as JSON; every parsing failure leaves the lexical
result standing and aborts nothing. -/
theorem claim_C7_amended_parse_chain (s : Nat) (tn nd : String)
    (cs : List Char) :
    (mainOracleText s tn nd cs).geminiAnalysis ≠ none ∧
      ((mainOracleText s tn nd cs).tendency ≠ tn →
        ∃ sub obj, jsonExtract cs = some sub ∧ jsonParse sub = some obj) := by
  constructor
  · unfold mainOracleText
    split
    · split
      · unfold reconcile
        dsimp only
        simp
      · simp
    · simp
  · intro hne
    cases hext : jsonExtract cs with
    | none =>
        unfold mainOracleText at hne
        rw [hext] at hne
        simp at hne
    | some sub =>
        cases hp : jsonParse sub with
        | none =>
            unfold mainOracleText at hne
            rw [hext] at hne
            dsimp only at hne
            rw [hp] at hne
            simp at hne
        | some obj => exact ⟨sub, obj, rfl, hp⟩

/-- Witness for the amended claim C7: a clean JSON severe judgment does
change the tendency, and the extraction and parse succeed on it. -/
theorem claim_C7_witness :
    ∃ sub obj, jsonExtract sevRaw.toList = some sub ∧
      jsonParse sub = some obj :=
  (claim_C7_amended_parse_chain 0 ("no") ("no") sevRaw.toList).2 (by decide)
